import Mathlib

/-!
# CLEAR Dashboard — verification of the emissions/cost core

Shallow embedding of the computational core of `clear_dashboard.py` and
`app_sano.py` (the two scripts are identical on the embedded lines).
A pandas `DataFrame` row is modelled as an ordered association list of
column-name/value pairs; a table is a list of rows.  Column operations
(`*=` on a column, assignment of a computed column) are modelled entry-wise,
preserving column order exactly as pandas does: an existing column is
replaced in place, a new one is appended at the end.  Numeric cell values
are rationals (the scripts' float literals 1.5, 0.8, 0.7, 1.2 and the
divisor 1000 are all exactly representable).
-/

namespace Clear

/-- A cell of the table: either a string (the product name column) or a
number (the four emission columns and the derived financial columns). -/
inductive Value where
  | str (s : String)
  | num (q : ℚ)
deriving DecidableEq

/-- One row of the dataset: ordered list of (column name, cell value). -/
abbrev Row := List (String × Value)

/-- The in-memory dataset. -/
abbrev Table := List Row

/- Column names, verbatim from the scripts. -/

def colProduct : String := "Product Name"

def colRaw : String := "Raw Material (kg CO2)"

def colProduction : String := "Production (kg CO2)"

def colLogistics : String := "Logistics (kg CO2)"

def colTotal : String := "Total Carbon Footprint (kg CO2)"

def colTons : String := "Total Carbon Footprint (tons)"

def colTax : String := "Carbon Tax (€)"

/-- `df[c]` read on one row: the first cell stored under column `c`. -/
def getVal (r : Row) (c : String) : Option Value :=
  (r.find? (fun e => e.1 == c)).map (fun e => e.2)

/-- Numeric read of a cell; `0` when the column is absent or non-numeric
(the embedded theorems only exercise it on well-formed tables). -/
def getNum (r : Row) (c : String) : ℚ :=
  match getVal r c with
  | some (Value.num q) => q
  | _ => 0

/-- Scalar multiplication of a cell, as pandas `*= k` on a numeric column. -/
def mulVal (k : ℚ) : Value → Value
  | Value.num q => Value.num (q * k)
  | v => v

/-- `df[c] *= k` on one row. -/
def mulColRow (c : String) (k : ℚ) (r : Row) : Row :=
  r.map (fun e => if e.1 == c then (e.1, mulVal k e.2) else e)

/-- `df[c] *= k` on the whole table. -/
def mulCol (c : String) (k : ℚ) (t : Table) : Table :=
  t.map (mulColRow c k)

/-- Whether a row carries column `c`. -/
def hasCol (r : Row) (c : String) : Bool :=
  r.any (fun e => e.1 == c)

/-- `df[c] = v` on one row: replace in place if the column exists,
append at the end otherwise — pandas column-assignment semantics. -/
def setColRow (c : String) (v : Value) (r : Row) : Row :=
  if hasCol r c then r.map (fun e => if e.1 == c then (e.1, v) else e)
  else r ++ [(c, v)]

/-- `df[c] = <row-wise expression>` on the whole table. -/
def setColWith (c : String) (f : Row → Value) (t : Table) : Table :=
  t.map (fun r => setColRow c (f r) r)

/-- The sidebar "Transportation Type" selectbox: Air, Road or Sea. -/
inductive TransportType where
  | Air
  | Road
  | Sea
deriving DecidableEq

/-- The sidebar "Energy Source" selectbox: Renewable or Non-renewable. -/
inductive EnergySource where
  | Renewable
  | NonRenewable
deriving DecidableEq

/-- The three scenario inputs of the Environmental Analysis tab.
`exportRatio` is the "Percent of Products Exported to EU" slider. -/
structure ScenarioParameters where
  transport : TransportType
  energy : EnergySource
  exportRatio : ℕ
deriving DecidableEq

/-- Lines 91–99 of `clear_dashboard.py` (54–62 of `app_sano.py`): the
conditional scalar multipliers on the logistics and production columns. -/
def scenario_scaled (d : Table) (transport : TransportType)
    (energy : EnergySource) : Table :=
  let d1 :=
    match transport with
    | TransportType.Air => mulCol colLogistics (1.5 : ℚ) d
    | TransportType.Sea => mulCol colLogistics (0.8 : ℚ) d
    | TransportType.Road => d
  match energy with
  | EnergySource.Renewable => mulCol colProduction (0.7 : ℚ) d1
  | EnergySource.NonRenewable => mulCol colProduction (1.2 : ℚ) d1

/-- Lines 102–106: the recomputed total, raw + production + logistics. -/
def totalFromStages (r : Row) : Value :=
  Value.num (getNum r colRaw + getNum r colProduction + getNum r colLogistics)

/-- Lines 90–106: `adjusted_data = data.copy()`, the scenario multipliers,
then the recomputed "Total Carbon Footprint (kg CO2)" column. -/
def adjusted_data (data : Table) (transport : TransportType)
    (energy : EnergySource) : Table :=
  setColWith colTotal totalFromStages (scenario_scaled data transport energy)

/-- The Emissions Adjuster of the spec, taking the full parameter record;
`exportRatio` is read by the script (line 87) but used in no computation. -/
def adjust (data : Table) (p : ScenarioParameters) : Table :=
  adjusted_data data p.transport p.energy

/-- Lines 144–145 of `clear_dashboard.py` (107–108 of `app_sano.py`):
the tons column and the carbon-tax column, assigned onto `data` itself. -/
def financial_data (data : Table) (carbon_tax_rate : ℚ) : Table :=
  let d1 := setColWith colTons
    (fun r => Value.num (getNum r colTotal / 1000)) data
  setColWith colTax
    (fun r => Value.num (getNum r colTons * carbon_tax_rate)) d1

/-- Line 148: `data["Total Carbon Footprint (tons)"].sum()`. -/
def total_emissions (d : Table) : ℚ :=
  (d.map (fun r => getNum r colTons)).sum

/-- Line 149: `data["Carbon Tax (€)"].sum()`. -/
def total_tax_cost (d : Table) : ℚ :=
  (d.map (fun r => getNum r colTax)).sum

/-- The Cost Calculator of the spec: the priced table and the two totals. -/
def priceCarbon (data : Table) (rate : ℚ) : Table × ℚ × ℚ :=
  let d := financial_data data rate
  (d, total_emissions d, total_tax_cost d)

/-- The script's mutable state: the variable `data` holding the base table
(one load per run; `st.cache_data` hands each run its own copy). -/
structure AppState where
  data : Table
deriving DecidableEq

/-- One execution of the Environmental Analysis tab: `adjusted_data`
is built from `data.copy()` (line 90), so the state's table is untouched;
the displayed adjusted table is returned alongside. -/
def envTab (s : AppState) (p : ScenarioParameters) : AppState × Table :=
  (s, adjust s.data p)

/-- One execution of the Financial Analysis tab: lines 144–145 assign the
two derived columns onto `data` itself, mutating the state's table;
the two displayed totals are returned alongside. -/
def finTab (s : AppState) (rate : ℚ) : AppState × ℚ × ℚ :=
  let d := financial_data s.data rate
  (⟨d⟩, total_emissions d, total_tax_cost d)

/-- Outcome of one load attempt as the loaders can observe it:
the source file is missing, the bytes do not parse as CSV, or parsing
succeeds with some table (possibly with zero rows). -/
inductive Source where
  | missing
  | unparseable
  | parsed (t : Table)

/-- Lines 38–43, `load_data`: `pd.read_csv` guarded by
`except FileNotFoundError` only — a missing file is turned into an empty
frame after an error message, but a parse failure propagates uncaught. -/
def load_data : Source → Option Table
  | Source.missing => some []
  | Source.unparseable => none
  | Source.parsed t => some t

/-- Lines 46–51, `process_uploaded_data`: `pd.read_csv` guarded by
`except Exception` — every failure becomes an empty frame. -/
def process_uploaded_data : Source → Table
  | Source.missing => []
  | Source.unparseable => []
  | Source.parsed t => t

/-- How a run of the script ends after the load: stopped with the
"Dataset could not be loaded" message, crashed on an uncaught exception,
or proceeding to the tabs with a table. -/
inductive RunResult where
  | dataUnavailable
  | crash
  | proceed (t : Table)
deriving DecidableEq

/-- Lines 61–63: `if data.empty: st.error(...); st.stop()`. -/
def emptyGuard (t : Table) : RunResult :=
  if t.isEmpty then RunResult.dataUnavailable else RunResult.proceed t

/-- Loading the default file (line 59) followed by the emptiness guard. -/
def loadDefault (s : Source) : RunResult :=
  match load_data s with
  | none => RunResult.crash
  | some t => emptyGuard t

/-- Loading an uploaded file (line 57) followed by the emptiness guard. -/
def loadUploaded (s : Source) : RunResult :=
  emptyGuard (process_uploaded_data s)

/-- The logistics multiplier of the spec's data model:
Air ×1.5, Sea ×0.8, Road ×1.0. -/
def transportFactor : TransportType → ℚ
  | TransportType.Air => 1.5
  | TransportType.Sea => 0.8
  | TransportType.Road => 1

/-- The production multiplier of the spec's data model:
Renewable ×0.7, NonRenewable ×1.2. -/
def energyFactor : EnergySource → ℚ
  | EnergySource.Renewable => 0.7
  | EnergySource.NonRenewable => 1.2

/-- Row `i` of a table (default `[]` out of range). -/
def rowAt (t : Table) (i : ℕ) : Row :=
  t.getD i []

/-- The spec's concrete scenario row: Raw=10, Production=20, Logistics=5,
with the loaded total 35. -/
def sampleRow : Row :=
  [(colProduct, Value.str "A"), (colRaw, Value.num 10),
   (colProduction, Value.num 20), (colLogistics, Value.num 5),
   (colTotal, Value.num 35)]

/-- A one-row base table used for concrete evaluations. -/
def sampleTable : Table := [sampleRow]

/-! ## Helper lemmas about the column operations -/

/-- `find?` by key commutes with a key-preserving entry map. -/
theorem find?_map_keyfix (f : String × Value → String × Value)
    (hkey : ∀ e, (f e).1 = e.1) (c : String) (r : Row) :
    (r.map f).find? (fun e => e.1 == c)
      = (r.find? (fun e => e.1 == c)).map f := by
  induction r with
  | nil => rfl
  | cons e r ih =>
    simp only [List.map_cons, List.find?]
    rw [hkey e]
    cases h : (e.1 == c) with
    | true => rfl
    | false => exact ih

theorem mulColRow_keyfix (c : String) (k : ℚ) (e : String × Value) :
    ((if e.1 == c then (e.1, mulVal k e.2) else e) : String × Value).1 = e.1 := by
  by_cases h : (e.1 == c) = true <;> simp [h]

theorem setColRow_keyfix (c : String) (v : Value) (e : String × Value) :
    ((if e.1 == c then (e.1, v) else e) : String × Value).1 = e.1 := by
  by_cases h : (e.1 == c) = true <;> simp [h]

/-- Reading a different column is unaffected by `*= k` on column `c`. -/
theorem getVal_mulColRow_ne (r : Row) (c c2 : String) (k : ℚ) (h : c2 ≠ c) :
    getVal (mulColRow c k r) c2 = getVal r c2 := by
  unfold getVal mulColRow
  rw [find?_map_keyfix _ (mulColRow_keyfix c k) c2 r]
  cases hf : r.find? (fun e => e.1 == c2) with
  | none => rfl
  | some e =>
    have he := List.find?_some hf
    have he2 : e.1 = c2 := by simpa using he
    simp [he2, h]

/-- Reading column `c` after `*= k` on column `c` sees the scaled cell. -/
theorem getVal_mulColRow_self (r : Row) (c : String) (k : ℚ) :
    getVal (mulColRow c k r) c = (getVal r c).map (mulVal k) := by
  unfold getVal mulColRow
  rw [find?_map_keyfix _ (mulColRow_keyfix c k) c r]
  cases hf : r.find? (fun e => e.1 == c) with
  | none => rfl
  | some e =>
    have he2 : e.1 = c := by simpa using List.find?_some hf
    simp [he2]

theorem getNum_mulColRow_ne (r : Row) (c c2 : String) (k : ℚ) (h : c2 ≠ c) :
    getNum (mulColRow c k r) c2 = getNum r c2 := by
  unfold getNum
  rw [getVal_mulColRow_ne r c c2 k h]

theorem getNum_mulColRow_self (r : Row) (c : String) (k : ℚ) :
    getNum (mulColRow c k r) c = getNum r c * k := by
  unfold getNum
  rw [getVal_mulColRow_self]
  cases hv : getVal r c with
  | none => simp [mulVal]
  | some v => cases v <;> simp [mulVal]

/-- Reading a different column is unaffected by assignment to column `c`. -/
theorem getVal_setColRow_ne (r : Row) (c c2 : String) (v : Value) (h : c2 ≠ c) :
    getVal (setColRow c v r) c2 = getVal r c2 := by
  unfold setColRow
  by_cases hc : hasCol r c
  · rw [if_pos hc]
    unfold getVal
    rw [find?_map_keyfix _ (setColRow_keyfix c v) c2 r]
    cases hf : r.find? (fun e => e.1 == c2) with
    | none => rfl
    | some e =>
      have he2 : e.1 = c2 := by simpa using List.find?_some hf
      simp [he2, h]
  · rw [if_neg hc]
    unfold getVal
    rw [List.find?_append]
    have hcc : (c == c2) = false := beq_eq_false_iff_ne.mpr (Ne.symm h)
    have : List.find? (fun e => e.1 == c2) [(c, v)] = none := by
      simp [List.find?, hcc]
    rw [this]
    cases r.find? (fun e => e.1 == c2) <;> rfl

/-- Reading column `c` after assigning `v` to column `c` sees `v`. -/
theorem getVal_setColRow_self (r : Row) (c : String) (v : Value) :
    getVal (setColRow c v r) c = some v := by
  unfold setColRow
  by_cases hc : hasCol r c
  · rw [if_pos hc]
    unfold getVal
    rw [find?_map_keyfix _ (setColRow_keyfix c v) c r]
    have hsome : (r.find? (fun e => e.1 == c)).isSome := by
      rw [List.find?_isSome]
      simpa [hasCol, List.any_eq_true] using hc
    cases hf : r.find? (fun e => e.1 == c) with
    | none => rw [hf] at hsome; simp at hsome
    | some e =>
      have he2 : e.1 = c := by simpa using List.find?_some hf
      simp [he2]
  · rw [if_neg hc]
    unfold getVal
    rw [List.find?_append]
    have hnone : r.find? (fun e => e.1 == c) = none := by
      rw [List.find?_eq_none]
      intro e he
      simp only [hasCol] at hc
      intro hb
      exact hc (List.any_eq_true.mpr ⟨e, he, hb⟩)
    rw [hnone]
    simp [List.find?]

theorem getNum_setColRow_ne (r : Row) (c c2 : String) (v : Value) (h : c2 ≠ c) :
    getNum (setColRow c v r) c2 = getNum r c2 := by
  unfold getNum
  rw [getVal_setColRow_ne r c c2 v h]

theorem getNum_setColRow_self (r : Row) (c : String) (q : ℚ) :
    getNum (setColRow c (Value.num q) r) c = q := by
  unfold getNum
  rw [getVal_setColRow_self]

/-! ## Map-fusion forms of the two table computations -/

/-- The per-row effect of the scenario multipliers. -/
def scaleRow (tr : TransportType) (en : EnergySource) (r : Row) : Row :=
  let r1 :=
    match tr with
    | TransportType.Air => mulColRow colLogistics (1.5 : ℚ) r
    | TransportType.Sea => mulColRow colLogistics (0.8 : ℚ) r
    | TransportType.Road => r
  match en with
  | EnergySource.Renewable => mulColRow colProduction (0.7 : ℚ) r1
  | EnergySource.NonRenewable => mulColRow colProduction (1.2 : ℚ) r1

/-- The per-row effect of the whole Emissions Adjuster. -/
def adjustRow (tr : TransportType) (en : EnergySource) (r : Row) : Row :=
  setColRow colTotal (totalFromStages (scaleRow tr en r)) (scaleRow tr en r)

theorem adjusted_data_eq_map (d : Table) (tr : TransportType)
    (en : EnergySource) :
    adjusted_data d tr en = d.map (adjustRow tr en) := by
  cases tr <;> cases en <;>
    simp [adjusted_data, scenario_scaled, mulCol, setColWith, adjustRow,
      scaleRow, List.map_map, Function.comp]

/-- The per-row effect of the Financial Analysis column assignments. -/
def finRow (rate : ℚ) (r : Row) : Row :=
  let r1 := setColRow colTons (Value.num (getNum r colTotal / 1000)) r
  setColRow colTax (Value.num (getNum r1 colTons * rate)) r1

theorem financial_data_eq_map (d : Table) (rate : ℚ) :
    financial_data d rate = d.map (finRow rate) := by
  simp [financial_data, setColWith, finRow, List.map_map, Function.comp]

theorem rowAt_map (f : Row → Row) (t : Table) (i : ℕ) (h : i < t.length) :
    rowAt (t.map f) i = f (rowAt t i) := by
  induction t generalizing i with
  | nil => simp at h
  | cons r t ih =>
    cases i with
    | zero => rfl
    | succ j =>
      have hj : j < t.length := by simpa using h
      simpa [rowAt] using ih j hj

/-! ## Row-level facts about the Emissions Adjuster -/

theorem getNum_scaleRow_logistics (tr : TransportType) (en : EnergySource)
    (r : Row) :
    getNum (scaleRow tr en r) colLogistics
      = getNum r colLogistics * transportFactor tr := by
  have hne : colLogistics ≠ colProduction := by decide
  cases tr <;> cases en <;>
    simp [scaleRow, transportFactor, getNum_mulColRow_ne _ _ _ _ hne,
      getNum_mulColRow_self]

theorem getNum_scaleRow_production (tr : TransportType) (en : EnergySource)
    (r : Row) :
    getNum (scaleRow tr en r) colProduction
      = getNum r colProduction * energyFactor en := by
  have hne : colProduction ≠ colLogistics := by decide
  cases tr <;> cases en <;>
    simp [scaleRow, energyFactor, getNum_mulColRow_ne _ _ _ _ hne,
      getNum_mulColRow_self]

theorem getVal_scaleRow_other (tr : TransportType) (en : EnergySource)
    (r : Row) (c : String) (h1 : c ≠ colLogistics) (h2 : c ≠ colProduction) :
    getVal (scaleRow tr en r) c = getVal r c := by
  cases tr <;> cases en <;>
    simp [scaleRow, getVal_mulColRow_ne _ _ _ _ h1,
      getVal_mulColRow_ne _ _ _ _ h2]

theorem getVal_adjustRow_other (tr : TransportType) (en : EnergySource)
    (r : Row) (c : String) (h1 : c ≠ colLogistics) (h2 : c ≠ colProduction)
    (h3 : c ≠ colTotal) :
    getVal (adjustRow tr en r) c = getVal r c := by
  unfold adjustRow
  rw [getVal_setColRow_ne _ _ _ _ h3, getVal_scaleRow_other _ _ _ _ h1 h2]

theorem getNum_adjustRow_logistics (tr : TransportType) (en : EnergySource)
    (r : Row) :
    getNum (adjustRow tr en r) colLogistics
      = getNum r colLogistics * transportFactor tr := by
  unfold adjustRow
  rw [getNum_setColRow_ne _ _ _ _ (by decide : colLogistics ≠ colTotal),
    getNum_scaleRow_logistics]

theorem getNum_adjustRow_production (tr : TransportType) (en : EnergySource)
    (r : Row) :
    getNum (adjustRow tr en r) colProduction
      = getNum r colProduction * energyFactor en := by
  unfold adjustRow
  rw [getNum_setColRow_ne _ _ _ _ (by decide : colProduction ≠ colTotal),
    getNum_scaleRow_production]

theorem getNum_adjustRow_raw (tr : TransportType) (en : EnergySource)
    (r : Row) :
    getNum (adjustRow tr en r) colRaw = getNum r colRaw := by
  unfold getNum
  rw [getVal_adjustRow_other tr en r colRaw (by decide) (by decide) (by decide)]

theorem getNum_adjustRow_total (tr : TransportType) (en : EnergySource)
    (r : Row) :
    getNum (adjustRow tr en r) colTotal
      = getNum (scaleRow tr en r) colRaw
        + getNum (scaleRow tr en r) colProduction
        + getNum (scaleRow tr en r) colLogistics := by
  unfold adjustRow totalFromStages
  rw [getNum_setColRow_self]

theorem getNum_scaleRow_raw (tr : TransportType) (en : EnergySource)
    (r : Row) :
    getNum (scaleRow tr en r) colRaw = getNum r colRaw := by
  unfold getNum
  rw [getVal_scaleRow_other tr en r colRaw (by decide) (by decide)]

/-! ## Row-level facts about the Cost Calculator -/

theorem getNum_finRow_tons (rate : ℚ) (r : Row) :
    getNum (finRow rate r) colTons = getNum r colTotal / 1000 := by
  unfold finRow
  rw [getNum_setColRow_ne _ _ _ _ (by decide : colTons ≠ colTax),
    getNum_setColRow_self]

theorem getNum_finRow_tax (rate : ℚ) (r : Row) :
    getNum (finRow rate r) colTax = getNum r colTotal / 1000 * rate := by
  unfold finRow
  rw [getNum_setColRow_self, getNum_setColRow_self]

theorem getVal_finRow_other (rate : ℚ) (r : Row) (c : String)
    (h1 : c ≠ colTons) (h2 : c ≠ colTax) :
    getVal (finRow rate r) c = getVal r c := by
  unfold finRow
  rw [getVal_setColRow_ne _ _ _ _ h2, getVal_setColRow_ne _ _ _ _ h1]

/-! ## Frame lemmas for the untouched columns -/

/-- Entries whose column is none of the three the Adjuster writes. -/
def otherCols (e : String × Value) : Bool :=
  !(e.1 == colLogistics || e.1 == colProduction || e.1 == colTotal)

/-- `filter` is blind to an entry map that fixes every entry it keeps. -/
theorem filter_map_fix (q : String × Value → Bool)
    (f : String × Value → String × Value)
    (hq : ∀ e, q (f e) = q e) (hfix : ∀ e, q e = true → f e = e) (r : Row) :
    (r.map f).filter q = r.filter q := by
  induction r with
  | nil => rfl
  | cons e r ih =>
    simp only [List.map_cons, List.filter]
    rw [hq e]
    cases h : q e with
    | false => exact ih
    | true => rw [hfix e h, ih]

theorem filter_otherCols_mulColRow (c : String) (k : ℚ) (r : Row)
    (hc : c = colLogistics ∨ c = colProduction ∨ c = colTotal) :
    (mulColRow c k r).filter otherCols = r.filter otherCols := by
  apply filter_map_fix otherCols _
    (fun e => by simp only [otherCols, mulColRow_keyfix c k e])
  intro e he
  have he2 : e.1 ≠ colLogistics ∧ e.1 ≠ colProduction ∧ e.1 ≠ colTotal := by
    simpa [otherCols, and_assoc] using he
  have hne : e.1 ≠ c := by
    rcases hc with rfl | rfl | rfl
    exacts [he2.1, he2.2.1, he2.2.2]
  simp [beq_eq_false_iff_ne.mpr hne]

theorem filter_otherCols_setColRow (c : String) (v : Value) (r : Row)
    (hc : c = colLogistics ∨ c = colProduction ∨ c = colTotal) :
    (setColRow c v r).filter otherCols = r.filter otherCols := by
  unfold setColRow
  by_cases h : hasCol r c
  · rw [if_pos h]
    apply filter_map_fix otherCols _
      (fun e => by simp only [otherCols, setColRow_keyfix c v e])
    intro e he
    have he2 : e.1 ≠ colLogistics ∧ e.1 ≠ colProduction ∧ e.1 ≠ colTotal := by
      simpa [otherCols, and_assoc] using he
    have hne : e.1 ≠ c := by
      rcases hc with rfl | rfl | rfl
      exacts [he2.1, he2.2.1, he2.2.2]
    simp [beq_eq_false_iff_ne.mpr hne]
  · rw [if_neg h, List.filter_append]
    have hv : otherCols (c, v) = false := by
      rcases hc with rfl | rfl | rfl <;> simp [otherCols]
    have : List.filter otherCols [(c, v)] = [] := by
      simp [List.filter, hv]
    rw [this, List.append_nil]

theorem filter_otherCols_scaleRow (tr : TransportType) (en : EnergySource)
    (r : Row) :
    (scaleRow tr en r).filter otherCols = r.filter otherCols := by
  cases tr <;> cases en <;>
    simp only [scaleRow] <;>
    rw [filter_otherCols_mulColRow _ _ _ (Or.inr (Or.inl rfl))] <;>
    rw [filter_otherCols_mulColRow _ _ _ (Or.inl rfl)]

theorem filter_otherCols_adjustRow (tr : TransportType) (en : EnergySource)
    (r : Row) :
    (adjustRow tr en r).filter otherCols = r.filter otherCols := by
  unfold adjustRow
  rw [filter_otherCols_setColRow _ _ _ (Or.inr (Or.inr rfl)),
    filter_otherCols_scaleRow]

/-- The recomputed total of an adjusted row is the sum of that same row's
three stage cells. -/
theorem getNum_adjustRow_total_self (tr : TransportType) (en : EnergySource)
    (r : Row) :
    getNum (adjustRow tr en r) colTotal
      = getNum (adjustRow tr en r) colRaw
        + getNum (adjustRow tr en r) colProduction
        + getNum (adjustRow tr en r) colLogistics := by
  unfold adjustRow totalFromStages
  rw [getNum_setColRow_self,
    getNum_setColRow_ne _ _ _ _ (by decide : colRaw ≠ colTotal),
    getNum_setColRow_ne _ _ _ _ (by decide : colProduction ≠ colTotal),
    getNum_setColRow_ne _ _ _ _ (by decide : colLogistics ≠ colTotal)]

example :
    getNum (rowAt (adjust sampleTable
      ⟨TransportType.Air, EnergySource.Renewable, 20⟩) 0) colTotal
      = 31.5 := by with_unfolding_all decide

/-! ## The claims -/

/-- C1: for every input table and every `ScenarioParameters`, `adjust`
returns a table of the same length and row order in which, per row: the
logistics cell is the input logistics cell times 1.5 for Air, 0.8 for Sea,
1.0 for Road; the production cell is the input production cell times 0.7
for Renewable and 1.2 for NonRenewable; the raw-material cell and the
product name are unchanged verbatim; and the total-footprint cell is the
sum of the adjusted raw-material, production and logistics cells. -/
theorem C1_adjust_rowwise (t : Table) (p : ScenarioParameters) :
    (adjust t p).length = t.length ∧
    ∀ i, i < t.length →
      getNum (rowAt (adjust t p) i) colLogistics
          = getNum (rowAt t i) colLogistics * transportFactor p.transport
      ∧ getNum (rowAt (adjust t p) i) colProduction
          = getNum (rowAt t i) colProduction * energyFactor p.energy
      ∧ getNum (rowAt (adjust t p) i) colRaw = getNum (rowAt t i) colRaw
      ∧ getVal (rowAt (adjust t p) i) colProduct
          = getVal (rowAt t i) colProduct
      ∧ getNum (rowAt (adjust t p) i) colTotal
          = getNum (rowAt (adjust t p) i) colRaw
            + getNum (rowAt (adjust t p) i) colProduction
            + getNum (rowAt (adjust t p) i) colLogistics := by
  unfold adjust
  rw [adjusted_data_eq_map]
  refine ⟨List.length_map _ _, fun i hi => ?_⟩
  rw [rowAt_map _ _ _ hi]
  exact ⟨getNum_adjustRow_logistics _ _ _,
    getNum_adjustRow_production _ _ _,
    getNum_adjustRow_raw _ _ _,
    getVal_adjustRow_other _ _ _ _ (by decide) (by decide) (by decide),
    getNum_adjustRow_total_self _ _ _⟩

/-- Closed instance of C1 at the spec's concrete scenario. -/
theorem C1_adjust_rowwise_witness :
    0 < sampleTable.length ∧
    getNum (rowAt (adjust sampleTable
        ⟨TransportType.Air, EnergySource.Renewable, 20⟩) 0) colLogistics
      = getNum (rowAt sampleTable 0) colLogistics
          * transportFactor TransportType.Air :=
  ⟨by decide,
    ((C1_adjust_rowwise sampleTable
      ⟨TransportType.Air, EnergySource.Renewable, 20⟩).2 0 (by decide)).1⟩

/-- C2: `priceCarbon` computes per row `tons = totalFootprintCO2 / 1000`
and `taxCost = tons * taxRate`, and its two aggregate totals are the
arithmetic sums over all rows of the per-row tons and taxCost columns it
just computed — the same computation path, no separate one. -/
theorem C2_priceCarbon_sums (t : Table) (rate : ℚ) :
    (priceCarbon t rate).1.length = t.length ∧
    (∀ i, i < t.length →
      getNum (rowAt (priceCarbon t rate).1 i) colTons
          = getNum (rowAt t i) colTotal / 1000
      ∧ getNum (rowAt (priceCarbon t rate).1 i) colTax
          = getNum (rowAt (priceCarbon t rate).1 i) colTons * rate) ∧
    (priceCarbon t rate).2.1
        = ((priceCarbon t rate).1.map (fun r => getNum r colTons)).sum ∧
    (priceCarbon t rate).2.2
        = ((priceCarbon t rate).1.map (fun r => getNum r colTax)).sum ∧
    (priceCarbon t rate).2.1
        = (t.map (fun r => getNum r colTotal / 1000)).sum ∧
    (priceCarbon t rate).2.2
        = (t.map (fun r => getNum r colTotal / 1000 * rate)).sum := by
  have hfin := financial_data_eq_map t rate
  refine ⟨?_, fun i hi => ?_, rfl, rfl, ?_, ?_⟩
  · show (financial_data t rate).length = t.length
    rw [hfin]
    exact List.length_map _ _
  · show getNum (rowAt (financial_data t rate) i) colTons
        = getNum (rowAt t i) colTotal / 1000
      ∧ getNum (rowAt (financial_data t rate) i) colTax
        = getNum (rowAt (financial_data t rate) i) colTons * rate
    rw [hfin, rowAt_map _ _ _ hi, getNum_finRow_tons, getNum_finRow_tax]
    exact ⟨rfl, rfl⟩
  · show total_emissions (financial_data t rate)
        = (t.map (fun r => getNum r colTotal / 1000)).sum
    rw [hfin]
    unfold total_emissions
    rw [List.map_map]
    have hfun : ((fun r => getNum r colTons) ∘ finRow rate)
        = fun r => getNum r colTotal / 1000 := by
      funext r
      exact getNum_finRow_tons rate r
    rw [hfun]
  · show total_tax_cost (financial_data t rate)
        = (t.map (fun r => getNum r colTotal / 1000 * rate)).sum
    rw [hfin]
    unfold total_tax_cost
    rw [List.map_map]
    have hfun : ((fun r => getNum r colTax) ∘ finRow rate)
        = fun r => getNum r colTotal / 1000 * rate := by
      funext r
      exact getNum_finRow_tax rate r
    rw [hfun]

/-- Closed instance of C2 at the spec's concrete scenario. -/
theorem C2_priceCarbon_sums_witness :
    0 < sampleTable.length ∧
    getNum (rowAt (priceCarbon sampleTable 25).1 0) colTons
      = getNum (rowAt sampleTable 0) colTotal / 1000 :=
  ⟨by decide, ((C2_priceCarbon_sums sampleTable 25).2.1 0 (by decide)).1⟩

example :
    getNum (rowAt (financial_data sampleTable 25) 0) colTax
      = 0.875 := by with_unfolding_all decide

/-- C3 counterexample: the Financial Analysis computation does not leave
the base table as it was — on a base table without the two derived
columns, the run appends them to `data` in place, so the state differs. -/
theorem C3_counterexample :
    (finTab ⟨sampleTable⟩ 25).1 ≠ (⟨sampleTable⟩ : AppState) := by
  with_unfolding_all decide

/-- C3 as it actually holds: the Emissions Adjuster operates on a copy and
returns the state's base table untouched; the Cost Calculator writes its
two derived columns (tons, tax) into the base table in place, but keeps
the row count and every other column's cells unchanged. -/
theorem C3_amended_frame (s : AppState) (p : ScenarioParameters) (rate : ℚ) :
    (envTab s p).1 = s ∧
    (finTab s rate).1.data.length = s.data.length ∧
    ∀ c, c ≠ colTons → c ≠ colTax →
      ∀ i, i < s.data.length →
        getVal (rowAt (finTab s rate).1.data i) c
          = getVal (rowAt s.data i) c := by
  refine ⟨rfl, ?_, fun c h1 h2 i hi => ?_⟩
  · show (financial_data s.data rate).length = s.data.length
    rw [financial_data_eq_map]
    exact List.length_map _ _
  · show getVal (rowAt (financial_data s.data rate) i) c
        = getVal (rowAt s.data i) c
    rw [financial_data_eq_map, rowAt_map _ _ _ hi,
      getVal_finRow_other _ _ _ h1 h2]

/-- Closed instance of the amended C3. -/
theorem C3_amended_frame_witness :
    colTotal ≠ colTons ∧ colTotal ≠ colTax ∧ 0 < sampleTable.length ∧
    getVal (rowAt (finTab ⟨sampleTable⟩ 25).1.data 0) colTotal
      = getVal (rowAt sampleTable 0) colTotal :=
  ⟨by decide, by decide, by decide,
    (C3_amended_frame ⟨sampleTable⟩
        ⟨TransportType.Air, EnergySource.Renewable, 20⟩ 25).2.2
      colTotal (by decide) (by decide) 0 (by decide)⟩

/-- A base row whose stored total (100) is not the sum of its three stage
cells (1 + 1 + 1): nothing in the loader recomputes or checks the total. -/
def skewRow : Row :=
  [(colProduct, Value.str "B"), (colRaw, Value.num 1),
   (colProduction, Value.num 1), (colLogistics, Value.num 1),
   (colTotal, Value.num 100)]

/-- One-row base table with an inconsistent stored total. -/
def skewTable : Table := [skewRow]

/-- C4 counterexample: in the table the Cost Calculator prices from, the
total-footprint cell is the stored input (100), not the stage sum (3), and
the tons column is computed from that stored value. -/
theorem C4_counterexample :
    getNum (rowAt (priceCarbon skewTable 25).1 0) colTotal
        ≠ getNum (rowAt (priceCarbon skewTable 25).1 0) colRaw
          + getNum (rowAt (priceCarbon skewTable 25).1 0) colProduction
          + getNum (rowAt (priceCarbon skewTable 25).1 0) colLogistics ∧
    getNum (rowAt (priceCarbon skewTable 25).1 0) colTons = 100 / 1000 := by
  constructor
  · with_unfolding_all decide
  · with_unfolding_all decide

/-- C4 as it actually holds: in the scenario-adjusted table every row's
total is recomputed as the sum of its three stage cells, but the Cost
Calculator derives its tons column from the base table's stored
total-footprint cell as loaded, without recomputing it from the stages. -/
theorem C4_amended_total (t : Table) (tr : TransportType) (en : EnergySource)
    (rate : ℚ) :
    (∀ i, i < t.length →
      getNum (rowAt (adjusted_data t tr en) i) colTotal
        = getNum (rowAt (adjusted_data t tr en) i) colRaw
          + getNum (rowAt (adjusted_data t tr en) i) colProduction
          + getNum (rowAt (adjusted_data t tr en) i) colLogistics) ∧
    (∀ i, i < t.length →
      getNum (rowAt (financial_data t rate) i) colTons
        = getNum (rowAt t i) colTotal / 1000) := by
  constructor
  · intro i hi
    rw [adjusted_data_eq_map, rowAt_map _ _ _ hi]
    exact getNum_adjustRow_total_self _ _ _
  · intro i hi
    rw [financial_data_eq_map, rowAt_map _ _ _ hi]
    exact getNum_finRow_tons _ _

/-- Closed instance of the amended C4. -/
theorem C4_amended_total_witness :
    0 < skewTable.length ∧
    getNum (rowAt (adjusted_data skewTable TransportType.Road
        EnergySource.NonRenewable) 0) colTotal
      = getNum (rowAt (adjusted_data skewTable TransportType.Road
          EnergySource.NonRenewable) 0) colRaw
        + getNum (rowAt (adjusted_data skewTable TransportType.Road
            EnergySource.NonRenewable) 0) colProduction
        + getNum (rowAt (adjusted_data skewTable TransportType.Road
            EnergySource.NonRenewable) 0) colLogistics :=
  ⟨by decide,
    (C4_amended_total skewTable TransportType.Road
      EnergySource.NonRenewable 25).1 0 (by decide)⟩

/-- C5: two parameter records that differ only in `exportRatio` (each in
[0,100]) produce identical `adjust` output — the slider value is read but
feeds no computation. -/
theorem C5_exportRatio_inert (t : Table) (tr : TransportType)
    (en : EnergySource) (e1 e2 : ℕ) (h1 : e1 ≤ 100) (h2 : e2 ≤ 100) :
    adjust t ⟨tr, en, e1⟩ = adjust t ⟨tr, en, e2⟩ := rfl

/-- Closed instance of C5. -/
theorem C5_exportRatio_inert_witness :
    (3 ≤ 100 ∧ 77 ≤ 100) ∧
    adjust sampleTable ⟨TransportType.Air, EnergySource.Renewable, 3⟩
      = adjust sampleTable ⟨TransportType.Air, EnergySource.Renewable, 77⟩ :=
  ⟨⟨by decide, by decide⟩,
    C5_exportRatio_inert sampleTable TransportType.Air
      EnergySource.Renewable 3 77 (by decide) (by decide)⟩

/-- C6 counterexample: called with the out-of-domain rate −5, the Cost
Calculator raises nothing and returns negative cost values, both per row
and in the aggregate total. -/
theorem C6_counterexample :
    getNum (rowAt (priceCarbon sampleTable (-5)).1 0) colTax < 0 ∧
    (priceCarbon sampleTable (-5)).2.2 < 0 := by
  constructor
  · with_unfolding_all decide
  · with_unfolding_all decide

/-- C6 as it actually holds: the core applies no domain guard on the tax
rate — for a negative rate it simply returns `taxCost = total/1000 * rate`,
which is negative wherever the stored footprint is positive; the only
constraint on the rate is the UI slider's range [10,100]. -/
theorem C6_no_guard (t : Table) (rate : ℚ) (i : ℕ) (hi : i < t.length)
    (hneg : rate < 0) (hpos : 0 < getNum (rowAt t i) colTotal) :
    getNum (rowAt (priceCarbon t rate).1 i) colTax
        = getNum (rowAt t i) colTotal / 1000 * rate ∧
    getNum (rowAt (priceCarbon t rate).1 i) colTax < 0 := by
  have heq : getNum (rowAt (priceCarbon t rate).1 i) colTax
      = getNum (rowAt t i) colTotal / 1000 * rate := by
    show getNum (rowAt (financial_data t rate) i) colTax = _
    rw [financial_data_eq_map, rowAt_map _ _ _ hi, getNum_finRow_tax]
  refine ⟨heq, ?_⟩
  rw [heq]
  exact mul_neg_of_pos_of_neg (div_pos hpos (by norm_num)) hneg

/-- Closed instance of the amended C6. -/
theorem C6_no_guard_witness :
    0 < sampleTable.length ∧ (-5 : ℚ) < 0 ∧
    0 < getNum (rowAt sampleTable 0) colTotal ∧
    getNum (rowAt (priceCarbon sampleTable (-5)).1 0) colTax < 0 :=
  ⟨by decide, by decide, by with_unfolding_all decide,
    (C6_no_guard sampleTable (-5) 0 (by decide) (by decide)
      (by with_unfolding_all decide)).2⟩

/-- C7 counterexample: an unparseable default source does not end in the
`DataUnavailable` condition — `load_data` catches only
`FileNotFoundError`, so the parse failure propagates uncaught. -/
theorem C7_counterexample :
    loadDefault Source.unparseable ≠ RunResult.dataUnavailable := by
  decide

/-- C7 as it actually holds: the uploaded-file path ends in
`DataUnavailable` for a missing source, an unparseable source and an empty
parsed table, and the default path does so for a missing file and an empty
table; but an unparseable default file crashes the run uncaught. -/
theorem C7_loader_amended (t : Table) (ht : t.isEmpty = true) :
    loadUploaded Source.missing = RunResult.dataUnavailable ∧
    loadUploaded Source.unparseable = RunResult.dataUnavailable ∧
    loadUploaded (Source.parsed t) = RunResult.dataUnavailable ∧
    loadDefault Source.missing = RunResult.dataUnavailable ∧
    loadDefault (Source.parsed t) = RunResult.dataUnavailable ∧
    loadDefault Source.unparseable = RunResult.crash := by
  refine ⟨rfl, rfl, ?_, rfl, ?_, rfl⟩ <;>
    simp [loadUploaded, loadDefault, load_data, process_uploaded_data,
      emptyGuard, ht]

/-- Closed instance of the amended C7 at the empty parsed table. -/
theorem C7_loader_amended_witness :
    ([] : Table).isEmpty = true ∧
    loadUploaded (Source.parsed []) = RunResult.dataUnavailable :=
  ⟨by decide, (C7_loader_amended [] (by decide)).2.2.1⟩

/-- C8 counterexample: invoked directly on the empty record sequence, both
computations return an empty successful result — no error of any kind. -/
theorem C8_counterexample :
    adjust [] ⟨TransportType.Air, EnergySource.Renewable, 20⟩ = [] ∧
    priceCarbon [] 25 = ([], 0, 0) := by
  constructor
  · rfl
  · rfl

/-- C8 as it actually holds: the empty table is rejected by the script's
upstream guard (`if data.empty: st.stop()`), which ends the run in the
`DataUnavailable` condition before either computation runs; the
computations themselves accept the empty sequence and return empty
output silently. -/
theorem C8_empty_amended (p : ScenarioParameters) (rate : ℚ) (t : Table)
    (ht : t.isEmpty = true) :
    emptyGuard t = RunResult.dataUnavailable ∧
    adjust [] p = [] ∧
    priceCarbon [] rate = ([], 0, 0) := by
  refine ⟨by simp [emptyGuard, ht], ?_, rfl⟩
  show adjusted_data [] p.transport p.energy = []
  rw [adjusted_data_eq_map]
  rfl

/-- Closed instance of the amended C8. -/
theorem C8_empty_amended_witness :
    ([] : Table).isEmpty = true ∧
    emptyGuard ([] : Table) = RunResult.dataUnavailable ∧
    adjust [] ⟨TransportType.Road, EnergySource.NonRenewable, 0⟩ = [] :=
  ⟨by decide,
    (C8_empty_amended ⟨TransportType.Road, EnergySource.NonRenewable, 0⟩
      25 [] (by decide)).1,
    (C8_empty_amended ⟨TransportType.Road, EnergySource.NonRenewable, 0⟩
      25 [] (by decide)).2.1⟩

/-- C9: re-running the Environmental Analysis tab with the same parameters
yields the identical displayed table both times — `adjust` is a pure remap
of the original base table held in the state, which the run leaves
untouched, so nothing compounds across invocations. -/
theorem C9_no_compounding (s : AppState) (p : ScenarioParameters) :
    (envTab s p).1 = s ∧
    (envTab (envTab s p).1 p).2 = (envTab s p).2 ∧
    (envTab s p).2 = adjust s.data p :=
  ⟨rfl, rfl, rfl⟩

/-- C10: every column other than logistics, production and total-footprint
passes through `adjust` verbatim — the sub-sequence of such entries in each
row, values and relative positions included, is unchanged, and the table
keeps its length. -/
theorem C10_other_columns_verbatim (t : Table) (p : ScenarioParameters) :
    (adjust t p).length = t.length ∧
    ∀ i, i < t.length →
      (rowAt (adjust t p) i).filter otherCols
        = (rowAt t i).filter otherCols := by
  unfold adjust
  rw [adjusted_data_eq_map]
  refine ⟨List.length_map _ _, fun i hi => ?_⟩
  rw [rowAt_map _ _ _ hi]
  exact filter_otherCols_adjustRow _ _ _

/-- Closed instance of C10. -/
theorem C10_other_columns_verbatim_witness :
    0 < sampleTable.length ∧
    (rowAt (adjust sampleTable
        ⟨TransportType.Sea, EnergySource.Renewable, 40⟩) 0).filter otherCols
      = (rowAt sampleTable 0).filter otherCols :=
  ⟨by decide,
    (C10_other_columns_verbatim sampleTable
      ⟨TransportType.Sea, EnergySource.Renewable, 40⟩).2 0 (by decide)⟩

end Clear
